import Mathlib

/-!
Verification of the expressBookReviews service.

This file gives a shallow embedding of the request handlers of the
repository and proves properties of them:

* booksdb.js: the seeded in-memory catalog, a JS object keyed by the
  numeric ISBN surrogate; route parameters arrive as strings and JS
  property access coerces, so keys are modelled as decimal strings and a
  JS object as an insertion-ordered association list.
* auth_users.js: isValid, authenticatedUser, the login handler, and the
  authenticated review PUT and DELETE handlers.
* general.js: the register handler, the GET / catalog listing (whose
  simulated random database failure is modelled as an explicit Boolean
  draw), the author search helper performAuthorSearch, and the
  GET /review/:isbn handler.
* index.js: the auth middleware mounted on "/customer/auth/*" and the
  dispatch of /customer requests through it.

Stateful handlers are embedded as pure functions from the mutable module
state (books catalog, users array, session) to a response paired with the
updated state.
-/

namespace ExpressBookReviews

/-- A book record from booksdb.js: author, title and the reviews object,
a JS object mapping username to review text. -/
structure Book where
  author : String
  title : String
  reviews : List (String × String)
deriving DecidableEq

/-- The single-quote character, used in one seeded title. -/
def squote : String := String.mk [Char.ofNat 39]

/-- The seeded catalog from booksdb.js. -/
def books : List (String × Book) := [
  ("1", ⟨"Chinua Achebe", "Things Fall Apart", []⟩),
  ("2", ⟨"Hans Christian Andersen", "Fairy tales", []⟩),
  ("3", ⟨"Dante Alighieri", "The Divine Comedy", []⟩),
  ("4", ⟨"Unknown", "The Epic Of Gilgamesh", []⟩),
  ("5", ⟨"Unknown", "The Book Of Job", []⟩),
  ("6", ⟨"Unknown", "One Thousand and One Nights", []⟩),
  ("7", ⟨"Unknown", "Njál" ++ squote ++ "s Saga", []⟩),
  ("8", ⟨"Jane Austen", "Pride and Prejudice", []⟩),
  ("9", ⟨"Honoré de Balzac", "Le Père Goriot", []⟩),
  ("10", ⟨"Samuel Beckett", "Molloy, Malone Dies, The Unnamable, the trilogy", []⟩)]

/-- JS property lookup books[isbn]. -/
def getBook (cat : List (String × Book)) (isbn : String) : Option Book :=
  (cat.find? fun p => p.1 == isbn).map Prod.snd

/-- JS property write m[user] = text on a reviews object: overwrite in
place if the key exists, otherwise append (JS objects keep string keys in
insertion order). -/
def setReview (m : List (String × String)) (user text : String) :
    List (String × String) :=
  if m.any fun p => p.1 == user then
    m.map fun p => if p.1 == user then (p.1, text) else p
  else m ++ [(user, text)]

/-- JS delete m[user] on a reviews object. -/
def removeReview (m : List (String × String)) (user : String) :
    List (String × String) :=
  m.filter fun p => p.1 != user

/-- JS property lookup m[user] on a reviews object. -/
def reviewLookup (m : List (String × String)) (user : String) : Option String :=
  (m.find? fun p => p.1 == user).map Prod.snd

/-- JS update books[isbn] (mutating the book stored under that key). -/
def updateBook (cat : List (String × Book)) (isbn : String) (f : Book → Book) :
    List (String × Book) :=
  cat.map fun p => if p.1 == isbn then (p.1, f p.2) else p

/-- A record of the users array of auth_users.js. -/
structure User where
  username : String
  password : String
deriving DecidableEq

/-- isValid from auth_users.js: filter the users array for the username
and test whether the filtered length is positive. -/
def isValid (users : List User) (username : String) : Bool :=
  decide (0 < (users.filter fun u => u.username == username).length)

/-- authenticatedUser from auth_users.js: filter for a record matching
both username and password. -/
def authenticatedUser (users : List User) (username password : String) : Bool :=
  decide (0 <
    (users.filter fun u => u.username == username && u.password == password).length)

/-- JS falsiness of an optional string field: a missing (undefined) field
and the empty string are falsy, every other string is truthy. -/
def falsy : Option String → Bool
  | none => true
  | some s => s == ""

/-- An HTTP response consisting of a status code and the message field of
the JSON body. -/
structure Resp where
  status : Nat
  message : String
deriving DecidableEq

/-- POST /register from general.js.  The body fields are optional since a
request may omit them. -/
def registerHandler (users : List User) (username password : Option String) :
    Resp × List User :=
  if falsy username || falsy password then
    (⟨400, "Username and password are required"⟩, users)
  else if isValid users (username.getD "") then
    (⟨409, "Username already exists. Please choose a different username."⟩, users)
  else
    (⟨200, "User registered successfully. You can now login."⟩,
      users ++ [⟨username.getD "", password.getD ""⟩])

/-- The credential stored in req.session.authorization by the login
handler.  tokenValid abstracts the outcome of jwt.verify on the stored
access token (signature integrity and expiry). -/
structure AuthToken where
  tokenValid : Bool
  username : String
deriving DecidableEq

/-- The per-request session context of express-session. -/
structure Session where
  authorization : Option AuthToken
deriving DecidableEq

/-- POST /customer/login from auth_users.js.  On success a freshly signed
(hence valid) token is stored in the session together with the username. -/
def loginHandler (users : List User) (sess : Session)
    (username password : Option String) : Resp × Session :=
  if falsy username || falsy password then
    (⟨400, "Username and password are required"⟩, sess)
  else if authenticatedUser users (username.getD "") (password.getD "") then
    (⟨200, "User successfully logged in"⟩, ⟨some ⟨true, username.getD ""⟩⟩)
  else
    (⟨404, "Invalid Login. Check username and password"⟩, sess)

/-- The parts of a PUT /customer/auth/review/:isbn request the handler can
see: the :isbn route parameter, req.query.review, and req.body.review.
The last is carried to state that the handler never reads the body. -/
structure PutReviewReq where
  isbn : String
  queryReview : Option String
  bodyReview : Option String
deriving DecidableEq

/-- PUT /customer/auth/review/:isbn from auth_users.js.  Reading
req.session.authorization.username with no authorization in the session
would throw a TypeError (answered 500 by Express); that branch is
unreachable behind the auth middleware. -/
def putReviewHandler (cat : List (String × Book)) (sess : Session)
    (r : PutReviewReq) : Resp × List (String × Book) :=
  match sess.authorization with
  | none => (⟨500, "TypeError"⟩, cat)
  | some a =>
    if falsy r.queryReview then
      (⟨400, "Review content is required"⟩, cat)
    else
      match getBook cat r.isbn with
      | some _ =>
        (⟨200, "Review for book with ISBN " ++ r.isbn ++
            " has been added/modified successfully"⟩,
          updateBook cat r.isbn fun b =>
            ⟨b.author, b.title, setReview b.reviews a.username (r.queryReview.getD "")⟩)
      | none => (⟨400, "Book not found"⟩, cat)

/-- DELETE /customer/auth/review/:isbn from auth_users.js.  The inner
guard mirrors the JS truthiness test books[isbn].reviews[username]. -/
def deleteReviewHandler (cat : List (String × Book)) (sess : Session)
    (isbn : String) : Resp × List (String × Book) :=
  match sess.authorization with
  | none => (⟨500, "TypeError"⟩, cat)
  | some a =>
    match getBook cat isbn with
    | some b =>
      if falsy (reviewLookup b.reviews a.username) then
        (⟨404, "Review not found for this user"⟩, cat)
      else
        (⟨200, "Review for book with ISBN " ++ isbn ++
            " has been deleted successfully"⟩,
          updateBook cat isbn fun bk =>
            ⟨bk.author, bk.title, removeReview bk.reviews a.username⟩)
    | none => (⟨404, "Book not found"⟩, cat)

/-- The response of GET /review/:isbn: status, message, and the reviews
field of the JSON body when present. -/
structure ReviewsResp where
  status : Nat
  message : String
  reviews : Option (List (String × String))
deriving DecidableEq

/-- GET /review/:isbn from general.js. -/
def getReviewsHandler (cat : List (String × Book)) (isbn : String) : ReviewsResp :=
  match getBook cat isbn with
  | some b =>
    if 0 < b.reviews.length then
      ⟨200, "Reviews for book with ISBN " ++ isbn ++ " retrieved successfully",
        some b.reviews⟩
    else
      ⟨200, "No reviews found for book with ISBN " ++ isbn, some []⟩
  | none => ⟨404, "Book with ISBN " ++ isbn ++ " not found", none⟩

/-- Whether a ReviewsResp carries a reviews mapping containing the entry
user maps to text. -/
def respHasEntry (r : ReviewsResp) (user text : String) : Bool :=
  match r.reviews with
  | some m => decide (reviewLookup m user = some text)
  | none => false

/-- The response of GET /: status, message, and the books field of the
JSON body when present. -/
structure ListAllResp where
  status : Nat
  message : String
  books : Option (List (String × Book))
deriving DecidableEq

/-- GET / from general.js.  randFail is the simulated database failure
draw inside getBooksAsync: true exactly when Math.random() > 0.95, in
which case the promise rejects and the catch branch answers 500. -/
def listAllHandler (cat : List (String × Book)) (randFail : Bool) : ListAllResp :=
  if randFail then
    ⟨500, "Error retrieving books using Async/Await", none⟩
  else
    ⟨200, "Books retrieved successfully using Async/Await", some cat⟩

/-- Whether the second list is a leading segment of the first, modelling
the anchored part of String.prototype.includes. -/
def hasPrefixB : List Char → List Char → Bool
  | _, [] => true
  | [], _ :: _ => false
  | a :: as, b :: bs => a == b && hasPrefixB as bs

/-- String.prototype.includes on character lists: the needle occurs
somewhere in the haystack. -/
def hasSubstrB : List Char → List Char → Bool
  | [], needle => needle.isEmpty
  | a :: t, needle => hasPrefixB (a :: t) needle || hasSubstrB t needle

/-- hay.includes(needle) on strings. -/
def strIncludes (hay needle : String) : Bool := hasSubstrB hay.data needle.data

/-- The match test of performAuthorSearch in general.js:
book.author.toLowerCase().includes(authorName.toLowerCase()).
String.prototype.toLowerCase is a host-library function performing
Unicode default case conversion, not code of this repository; like the
Math.random draw of listAllHandler it enters the embedding as an explicit
parameter, toLow, applied to both the author and the search string
exactly as the code applies toLowerCase to both. -/
def authorMatches (toLow : String → String) (b : Book) (s : String) : Bool :=
  strIncludes (toLow b.author) (toLow s)

/-- One element of the matchingBooks array built by performAuthorSearch. -/
structure SearchHit where
  isbn : String
  title : String
  author : String
  reviews : List (String × String)
deriving DecidableEq

/-- The record pushed onto matchingBooks for a catalog entry. -/
def hitOf (p : String × Book) : SearchHit := ⟨p.1, p.2.title, p.2.author, p.2.reviews⟩

/-- The comparison used to sort matchingBooks; a.title.localeCompare(b.title)
is modelled as code-point lexicographic order on titles. -/
def titleLE (a b : SearchHit) : Prop := a.title ≤ b.title

instance : DecidableRel titleLE :=
  fun a b => inferInstanceAs (Decidable (a.title ≤ b.title))

instance : IsTotal SearchHit titleLE := ⟨fun a b => le_total a.title b.title⟩

instance : IsTrans SearchHit titleLE := ⟨fun _ _ _ h h2 => le_trans h h2⟩

/-- performAuthorSearch from general.js: collect the catalog entries whose
lowercased author contains the lowercased search string, in catalog order,
then sort the hits by title (a stable sort, as Array.prototype.sort is);
toLow is the host's toLowerCase, as in authorMatches. -/
def performAuthorSearch (toLow : String → String) (cat : List (String × Book))
    (authorName : String) : List SearchHit :=
  List.insertionSort titleLE
    ((cat.filter fun p => authorMatches toLow p.2 authorName).map hitOf)

/-- The /customer requests the claims are about. -/
inductive CustomerReq where
  | login (username password : Option String)
  | putReview (r : PutReviewReq)
  | delReview (isbn : String)
deriving DecidableEq

/-- The request path, as matched against the Express mounts of index.js. -/
def CustomerReq.path : CustomerReq → String
  | .login _ _ => "/customer/login"
  | .putReview r => "/customer/auth/review/" ++ r.isbn
  | .delReview isbn => "/customer/auth/review/" ++ isbn

/-- Whether the auth middleware mounted on "/customer/auth/*" in index.js
applies to a request path. -/
def authGateApplies (path : String) : Bool :=
  "/customer/auth/".data.isPrefixOf path.data

/-- The module-level mutable state shared by the handlers: the books
catalog and the users array. -/
structure ServerState where
  books : List (String × Book)
  users : List User
deriving DecidableEq

/-- Route a /customer request to its handler, threading the state. -/
def runCustomerHandler (st : ServerState) (sess : Session) :
    CustomerReq → Resp × ServerState × Session
  | .login u p =>
    let out := loginHandler st.users sess u p
    (out.1, st, out.2)
  | .putReview r =>
    let out := putReviewHandler st.books sess r
    (out.1, ⟨out.2, st.users⟩, sess)
  | .delReview isbn =>
    let out := deleteReviewHandler st.books sess isbn
    (out.1, ⟨out.2, st.users⟩, sess)

/-- The /customer pipeline of index.js: the auth middleware runs first,
and only on paths under /customer/auth/; it rejects with 403 when the
session carries no credential, or carries one that fails jwt.verify;
otherwise the matching route handler runs. -/
def dispatchCustomer (st : ServerState) (sess : Session) (req : CustomerReq) :
    Resp × ServerState × Session :=
  if authGateApplies req.path then
    match sess.authorization with
    | none => (⟨403, "User not logged in"⟩, st, sess)
    | some a =>
      if a.tokenValid then runCustomerHandler st sess req
      else (⟨403, "User not authenticated"⟩, st, sess)
  else runCustomerHandler st sess req

/-- A sequence of further POST /register calls applied to the user
directory, the only operation of the service that mutates it. -/
def applyRegisters (users : List User) :
    List (Option String × Option String) → List User
  | [] => users
  | (u, p) :: rest => applyRegisters (registerHandler users u p).2 rest

/-! ### Helper lemmas -/

theorem string_data_append (s t : String) : (s ++ t).data = s.data ++ t.data := by
  cases s
  cases t
  rfl

theorem isPrefixOf_append (l₁ l₂ : List Char) : l₁.isPrefixOf (l₁ ++ l₂) = true := by
  induction l₁ with
  | nil => simp [List.isPrefixOf]
  | cons a t ih =>
    show (a == a && List.isPrefixOf t (t ++ l₂)) = true
    simp [ih]

theorem authGate_review (isbn : String) :
    authGateApplies ("/customer/auth/review/" ++ isbn) = true := by
  unfold authGateApplies
  rw [string_data_append]
  have h0 : "/customer/auth/review/".data = "/customer/auth/".data ++ "review/".data := by
    decide
  rw [h0, List.append_assoc]
  exact isPrefixOf_append _ _

theorem authGate_login : authGateApplies "/customer/login" = false := by decide

theorem isValid_append (users tail : List User) (x : String)
    (h : isValid users x = true) : isValid (users ++ tail) x = true := by
  simp only [isValid, decide_eq_true_eq, List.filter_append, List.length_append] at h ⊢
  omega

theorem isValid_appended (users : List User) (x pw : String) :
    isValid (users ++ [⟨x, pw⟩]) x = true := by
  simp only [isValid, decide_eq_true_eq, List.filter_append, List.length_append]
  simp [List.filter_cons]

theorem isValid_register (users : List User) (u p : Option String) (x : String)
    (h : isValid users x = true) : isValid (registerHandler users u p).2 x = true := by
  by_cases h1 : (falsy u || falsy p) = true
  · simpa [registerHandler, h1] using h
  · by_cases h2 : isValid users (u.getD "") = true
    · simpa [registerHandler, h1, h2] using h
    · simp only [registerHandler, h1, h2]
      simp only [Bool.false_eq_true, if_false]
      exact isValid_append users _ x h

theorem isValid_applyRegisters (users : List User)
    (ops : List (Option String × Option String)) (x : String)
    (h : isValid users x = true) :
    isValid (applyRegisters users ops) x = true := by
  induction ops generalizing users with
  | nil => exact h
  | cons op rest ih =>
    obtain ⟨u', p'⟩ := op
    exact ih ((registerHandler users u' p').2) (isValid_register users u' p' x h)

theorem registerHandler_success (users : List User) (u p : Option String)
    (h : (registerHandler users u p).1.status = 200) :
    falsy u = false ∧ falsy p = false ∧ isValid users (u.getD "") = false ∧
      (registerHandler users u p).2 = users ++ [⟨u.getD "", p.getD ""⟩] := by
  by_cases h1 : (falsy u || falsy p) = true
  · simp [registerHandler, h1] at h
  · by_cases h2 : isValid users (u.getD "") = true
    · simp [registerHandler, h1, h2] at h
    · have hor := Bool.or_eq_false_iff.mp (Bool.not_eq_true _ |>.mp h1)
      refine ⟨hor.1, hor.2, Bool.not_eq_true _ |>.mp h2, ?_⟩
      simp [registerHandler, h1, h2]

theorem reviewLookup_cons_pos (q : String × String) (t : List (String × String))
    (k : String) (h : (q.1 == k) = true) : reviewLookup (q :: t) k = some q.2 := by
  simp only [reviewLookup]
  rw [List.find?_cons_of_pos (p := fun p => p.1 == k) t h]
  rfl

theorem reviewLookup_cons_neg (q : String × String) (t : List (String × String))
    (k : String) (h : ¬ (q.1 == k) = true) :
    reviewLookup (q :: t) k = reviewLookup t k := by
  simp only [reviewLookup]
  rw [List.find?_cons_of_neg (p := fun p => p.1 == k) t h]

theorem lookup_map_set_self (m : List (String × String)) (k v : String)
    (h : m.any (fun p => p.1 == k) = true) :
    reviewLookup (m.map fun p => if p.1 == k then (p.1, v) else p) k = some v := by
  induction m with
  | nil => simp at h
  | cons q t ih =>
    simp only [List.map_cons]
    by_cases hq : (q.1 == k) = true
    · rw [if_pos hq]
      exact reviewLookup_cons_pos _ _ _ hq
    · rw [if_neg hq, reviewLookup_cons_neg _ _ _ hq]
      exact ih (by simpa [List.any_cons, hq] using h)

theorem lookup_append_single (m : List (String × String)) (k v : String)
    (h : m.any (fun p => p.1 == k) = false) :
    reviewLookup (m ++ [(k, v)]) k = some v := by
  induction m with
  | nil => exact reviewLookup_cons_pos _ _ _ (beq_self_eq_true k)
  | cons q t ih =>
    rw [List.any_cons] at h
    have hq := (Bool.or_eq_false_iff.mp h).1
    have ht := (Bool.or_eq_false_iff.mp h).2
    rw [List.cons_append, reviewLookup_cons_neg _ _ _ (by simp [hq])]
    exact ih ht

theorem any_eq_false_of_not_true {m : List (String × String)} {f : String × String → Bool}
    (h : ¬ m.any f = true) : m.any f = false := by
  cases hx : m.any f
  · rfl
  · exact absurd hx h

theorem reviewLookup_setReview_self (m : List (String × String)) (k v : String) :
    reviewLookup (setReview m k v) k = some v := by
  by_cases h : m.any (fun p => p.1 == k) = true
  · rw [setReview, if_pos h]
    exact lookup_map_set_self m k v h
  · rw [setReview, if_neg h]
    exact lookup_append_single m k v (any_eq_false_of_not_true h)

theorem lookup_map_set_other (m : List (String × String)) (k v u : String)
    (hne : u ≠ k) :
    reviewLookup (m.map fun p => if p.1 == k then (p.1, v) else p) u =
      reviewLookup m u := by
  induction m with
  | nil => rfl
  | cons q t ih =>
    simp only [List.map_cons]
    by_cases hqu : (q.1 == u) = true
    · have h1 : q.1 = u := eq_of_beq hqu
      have hqk : ¬ (q.1 == k) = true := by
        rw [beq_iff_eq, h1]
        exact hne
      rw [if_neg hqk, reviewLookup_cons_pos _ _ _ hqu, reviewLookup_cons_pos _ _ _ hqu]
    · by_cases hqk : (q.1 == k) = true
      · rw [if_pos hqk, reviewLookup_cons_neg (q.1, v) _ _ hqu,
          reviewLookup_cons_neg q t _ hqu]
        exact ih
      · rw [if_neg hqk, reviewLookup_cons_neg _ _ _ hqu, reviewLookup_cons_neg _ _ _ hqu]
        exact ih

theorem lookup_append_single_other (m : List (String × String)) (k v u : String)
    (hne : u ≠ k) :
    reviewLookup (m ++ [(k, v)]) u = reviewLookup m u := by
  induction m with
  | nil =>
    have hk : ¬ ((k, v).1 == u) = true := by
      rw [beq_iff_eq]
      exact fun h => hne h.symm
    rw [List.nil_append, reviewLookup_cons_neg _ _ _ hk]
  | cons q t ih =>
    by_cases hqu : (q.1 == u) = true
    · rw [List.cons_append, reviewLookup_cons_pos _ _ _ hqu, reviewLookup_cons_pos _ _ _ hqu]
    · rw [List.cons_append, reviewLookup_cons_neg _ _ _ hqu, reviewLookup_cons_neg _ _ _ hqu]
      exact ih

theorem reviewLookup_setReview_other (m : List (String × String)) (k v u : String)
    (hne : u ≠ k) : reviewLookup (setReview m k v) u = reviewLookup m u := by
  by_cases h : m.any (fun p => p.1 == k) = true
  · rw [setReview, if_pos h]
    exact lookup_map_set_other m k v u hne
  · rw [setReview, if_neg h]
    exact lookup_append_single_other m k v u hne

theorem setReview_ne_nil (m : List (String × String)) (k v : String) :
    setReview m k v ≠ [] := by
  by_cases h : m.any (fun p => p.1 == k) = true
  · cases m with
    | nil => simp at h
    | cons q t =>
      rw [setReview, if_pos h]
      simp
  · rw [setReview, if_neg h]
    simp

theorem getBook_cons_pos (q : String × Book) (t : List (String × Book))
    (isbn : String) (h : (q.1 == isbn) = true) : getBook (q :: t) isbn = some q.2 := by
  simp only [getBook]
  rw [List.find?_cons_of_pos (p := fun p => p.1 == isbn) t h]
  rfl

theorem getBook_cons_neg (q : String × Book) (t : List (String × Book))
    (isbn : String) (h : ¬ (q.1 == isbn) = true) :
    getBook (q :: t) isbn = getBook t isbn := by
  simp only [getBook]
  rw [List.find?_cons_of_neg (p := fun p => p.1 == isbn) t h]

theorem getBook_updateBook_self (cat : List (String × Book)) (isbn : String)
    (f : Book → Book) :
    getBook (updateBook cat isbn f) isbn = (getBook cat isbn).map f := by
  induction cat with
  | nil => rfl
  | cons q t ih =>
    simp only [updateBook, List.map_cons]
    by_cases hq : (q.1 == isbn) = true
    · rw [if_pos hq, getBook_cons_pos (q.1, f q.2) _ _ hq, getBook_cons_pos q t _ hq]
      rfl
    · rw [if_neg hq, getBook_cons_neg q _ _ hq, getBook_cons_neg q t _ hq]
      exact ih

theorem getBook_updateBook_other (cat : List (String × Book)) (isbn j : String)
    (f : Book → Book) (hne : j ≠ isbn) :
    getBook (updateBook cat isbn f) j = getBook cat j := by
  induction cat with
  | nil => rfl
  | cons q t ih =>
    simp only [updateBook, List.map_cons]
    by_cases hqj : (q.1 == j) = true
    · have h1 : q.1 = j := eq_of_beq hqj
      have hq : ¬ (q.1 == isbn) = true := by
        rw [beq_iff_eq, h1]
        exact hne
      rw [if_neg hq, getBook_cons_pos q _ _ hqj, getBook_cons_pos q t _ hqj]
    · by_cases hq : (q.1 == isbn) = true
      · rw [if_pos hq, getBook_cons_neg (q.1, f q.2) _ _ hqj, getBook_cons_neg q t _ hqj]
        exact ih
      · rw [if_neg hq, getBook_cons_neg q _ _ hqj, getBook_cons_neg q t _ hqj]
        exact ih

/-! ### Claim theorems -/

/-- Claim C1, counterexample: a login request with no credential in the
session is not rejected with 403 by the middleware; the login handler runs
and answers 404 for the unknown credentials. -/
theorem login_gate_counterexample :
    (dispatchCustomer ⟨books, []⟩ ⟨none⟩ (.login (some "alice") (some "pw"))).1.status = 404 ∧
    ¬ (dispatchCustomer ⟨books, []⟩ ⟨none⟩
        (.login (some "alice") (some "pw"))).1.status = 403 :=
  ⟨rfl, by decide⟩

/-- Claim C1 (amended): the session gate covers only the review-mutation
paths under /customer/auth/; POST /customer/login is dispatched to the
login handler regardless of the session credential, while a
review-mutation request whose session carries no credential is rejected
with 403 before its handler runs and leaves the state unchanged. -/
theorem customer_gate_spec (st : ServerState) (sess : Session) :
    (∀ u p, dispatchCustomer st sess (.login u p) =
      runCustomerHandler st sess (.login u p)) ∧
    (∀ r, sess.authorization = none →
      dispatchCustomer st sess (.putReview r) = (⟨403, "User not logged in"⟩, st, sess)) ∧
    (∀ isbn, sess.authorization = none →
      dispatchCustomer st sess (.delReview isbn) =
        (⟨403, "User not logged in"⟩, st, sess)) := by
  refine ⟨fun u p => ?_, fun r h => ?_, fun isbn h => ?_⟩
  · simp [dispatchCustomer, CustomerReq.path, authGate_login]
  · simp [dispatchCustomer, CustomerReq.path, authGate_review, h]
  · simp [dispatchCustomer, CustomerReq.path, authGate_review, h]

/-- Witness for C1 at a concrete gated request with an empty session. -/
theorem customer_gate_witness :
    dispatchCustomer ⟨books, []⟩ ⟨none⟩ (.putReview ⟨"1", some "Nice", none⟩) =
      (⟨403, "User not logged in"⟩, ⟨books, []⟩, ⟨none⟩) :=
  (customer_gate_spec ⟨books, []⟩ ⟨none⟩).2.1 ⟨"1", some "Nice", none⟩ rfl

/-- Claim C2, counterexample: when the simulated database-failure draw
fires, GET / answers 500, so a failure branch is reachable. -/
theorem listAll_failure_counterexample :
    (listAllHandler books true).status = 500 ∧
    ¬ (listAllHandler books true).status = 200 :=
  ⟨rfl, by decide⟩

/-- Claim C2 (amended): GET / returns the full catalog with status 200
whenever the simulated random database failure does not fire; when the
draw fires it answers 500 with no catalog. -/
theorem listAll_spec (cat : List (String × Book)) :
    listAllHandler cat false =
      ⟨200, "Books retrieved successfully using Async/Await", some cat⟩ ∧
    (listAllHandler cat true).status = 500 ∧ (listAllHandler cat true).books = none :=
  ⟨rfl, rfl, rfl⟩

/-- Claim C3, counterexample: deleting a review of an absent book and
deleting an absent review of an existing book both answer 404, but the
response bodies differ, so the two causes are distinguishable. -/
theorem deleteReview_body_counterexample :
    (deleteReviewHandler books ⟨some ⟨true, "alice"⟩⟩ "999").1.status = 404 ∧
    (deleteReviewHandler books ⟨some ⟨true, "alice"⟩⟩ "1").1.status = 404 ∧
    ¬ (deleteReviewHandler books ⟨some ⟨true, "alice"⟩⟩ "999").1.message =
        (deleteReviewHandler books ⟨some ⟨true, "alice"⟩⟩ "1").1.message :=
  ⟨rfl, rfl, by decide⟩

/-- Claim C3 (amended): deleteReview fails with status 404 both when the
book is absent and when the book exists but holds no review by the acting
user; the two failures share the status but carry different message
bodies ("Book not found" vs "Review not found for this user"), and in
both cases the catalog is unchanged. -/
theorem deleteReview_notfound_spec (cat : List (String × Book)) (sess : Session)
    (isbn : String) (a : AuthToken) (ha : sess.authorization = some a) :
    (getBook cat isbn = none →
      deleteReviewHandler cat sess isbn = (⟨404, "Book not found"⟩, cat)) ∧
    (∀ b, getBook cat isbn = some b →
      falsy (reviewLookup b.reviews a.username) = true →
      deleteReviewHandler cat sess isbn =
        (⟨404, "Review not found for this user"⟩, cat)) := by
  constructor
  · intro h
    simp [deleteReviewHandler, ha, h]
  · intro b hb hf
    simp [deleteReviewHandler, ha, hb, hf]

/-- Witness for C3 at the seeded catalog: an absent book and a book with
no review by the acting user. -/
theorem deleteReview_notfound_witness :
    deleteReviewHandler books ⟨some ⟨true, "carol"⟩⟩ "999" =
      (⟨404, "Book not found"⟩, books) ∧
    deleteReviewHandler books ⟨some ⟨true, "carol"⟩⟩ "1" =
      (⟨404, "Review not found for this user"⟩, books) :=
  ⟨(deleteReview_notfound_spec books ⟨some ⟨true, "carol"⟩⟩ "999" ⟨true, "carol"⟩ rfl).1
      (by decide),
    (deleteReview_notfound_spec books ⟨some ⟨true, "carol"⟩⟩ "1" ⟨true, "carol"⟩ rfl).2
      ⟨"Chinua Achebe", "Things Fall Apart", []⟩ rfl rfl⟩

/-- Claim C4: for every host lowercase map toLow and every search string,
performAuthorSearch returns exactly the catalog entries whose lowercased
author contains the lowercased search string — the case-insensitive
substring match of the code, relative to the Unicode toLowerCase the
engine implements — as a permutation of the filtered catalog; the result
is sorted by title ascending, and is empty when no entry matches. -/
theorem findByAuthor_spec (toLow : String → String) (cat : List (String × Book))
    (s : String) :
    List.Perm (performAuthorSearch toLow cat s)
      ((cat.filter fun p => authorMatches toLow p.2 s).map hitOf) ∧
    List.Sorted titleLE (performAuthorSearch toLow cat s) ∧
    ((∀ p ∈ cat, authorMatches toLow p.2 s = false) →
      performAuthorSearch toLow cat s = []) := by
  refine ⟨List.perm_insertionSort _ _, List.sorted_insertionSort _ _, fun h => ?_⟩
  have hf : (cat.filter fun p => authorMatches toLow p.2 s) = [] := by
    rw [List.filter_eq_nil_iff]
    intro p hp
    simp [h p hp]
  unfold performAuthorSearch
  rw [hf]
  rfl

/-- Witness for C4: with the identity as the lowercase map, the search for
an author substring matching nothing in the seeded catalog is empty. -/
theorem findByAuthor_witness : performAuthorSearch id books "zzz" = [] :=
  (findByAuthor_spec id books "zzz").2.2 (by decide)

/-- Claim C5: GET /review/:isbn answers 404 exactly when the book id is
absent, and for an existing book it answers 200 carrying the book's
(possibly empty) review mapping. -/
theorem getReviews_spec (cat : List (String × Book)) (isbn : String) :
    ((getReviewsHandler cat isbn).status = 404 ↔ getBook cat isbn = none) ∧
    (∀ b, getBook cat isbn = some b →
      (getReviewsHandler cat isbn).status = 200 ∧
        (getReviewsHandler cat isbn).reviews = some b.reviews) := by
  constructor
  · cases hb : getBook cat isbn with
    | none => simp [getReviewsHandler, hb]
    | some b =>
      by_cases hl : 0 < b.reviews.length
      · simp [getReviewsHandler, hb, hl]
      · simp [getReviewsHandler, hb, hl]
  · intro b hb
    by_cases hl : 0 < b.reviews.length
    · simp [getReviewsHandler, hb, hl]
    · have hnil : b.reviews = [] := by
        cases hr : b.reviews with
        | nil => rfl
        | cons x xs =>
          exact absurd (by rw [hr]; simp) hl
      simp [getReviewsHandler, hb, hl, hnil]

/-- Witness for C5 at a seeded book with zero reviews. -/
theorem getReviews_witness :
    (getReviewsHandler books "1").status = 200 ∧
      (getReviewsHandler books "1").reviews = some [] :=
  (getReviews_spec books "1").2 ⟨"Chinua Achebe", "Things Fall Apart", []⟩ rfl

/-- Claim C6: for an existing book, a non-empty review text and a session
holding a credential, a successful putReview followed by getReviews on the
same id yields status 200 and a mapping containing the acting user's entry
with exactly that text. -/
theorem putReview_getReviews_roundtrip (cat : List (String × Book)) (sess : Session)
    (a : AuthToken) (isbn text : String) (body : Option String) (b : Book)
    (ha : sess.authorization = some a) (ht : ¬ text = "")
    (hb : getBook cat isbn = some b) :
    (putReviewHandler cat sess ⟨isbn, some text, body⟩).1.status = 200 ∧
    (getReviewsHandler (putReviewHandler cat sess ⟨isbn, some text, body⟩).2 isbn).status =
      200 ∧
    respHasEntry (getReviewsHandler (putReviewHandler cat sess ⟨isbn, some text, body⟩).2 isbn)
      a.username text = true := by
  have hf : falsy (some text) = false := beq_eq_false_iff_ne.mpr ht
  have hput : putReviewHandler cat sess ⟨isbn, some text, body⟩ =
      (⟨200, "Review for book with ISBN " ++ isbn ++
          " has been added/modified successfully"⟩,
        updateBook cat isbn fun bk =>
          ⟨bk.author, bk.title, setReview bk.reviews a.username text⟩) := by
    simp [putReviewHandler, ha, hf, hb]
  have hcat : getBook (updateBook cat isbn fun bk =>
      ⟨bk.author, bk.title, setReview bk.reviews a.username text⟩) isbn =
      some ⟨b.author, b.title, setReview b.reviews a.username text⟩ := by
    rw [getBook_updateBook_self, hb]
    rfl
  have hlen : 0 < (setReview b.reviews a.username text).length :=
    List.length_pos.mpr (setReview_ne_nil _ _ _)
  rw [hput]
  refine ⟨rfl, ?_, ?_⟩
  · simp [getReviewsHandler, hcat, hlen]
  · simp [getReviewsHandler, respHasEntry, hcat, hlen]
    exact reviewLookup_setReview_self _ _ _

/-- Witness for C6 at the seeded catalog. -/
theorem putReview_getReviews_roundtrip_witness :
    (putReviewHandler books ⟨some ⟨true, "alice"⟩⟩ ⟨"1", some "Loved it", none⟩).1.status =
      200 ∧
    (getReviewsHandler
        (putReviewHandler books ⟨some ⟨true, "alice"⟩⟩ ⟨"1", some "Loved it", none⟩).2
        "1").status = 200 ∧
    respHasEntry
      (getReviewsHandler
        (putReviewHandler books ⟨some ⟨true, "alice"⟩⟩ ⟨"1", some "Loved it", none⟩).2 "1")
      "alice" "Loved it" = true :=
  putReview_getReviews_roundtrip books ⟨some ⟨true, "alice"⟩⟩ ⟨true, "alice"⟩ "1"
    "Loved it" none ⟨"Chinua Achebe", "Things Fall Apart", []⟩ rfl (by decide) rfl

/-- Claim C7, counterexample: after a successful registration of a user,
registering the same username again with an empty password fails with the
missing-fields 400 response, not with the duplicate 409 one. -/
theorem register_duplicate_counterexample :
    (registerHandler (registerHandler [] (some "alice") (some "pw1")).2
        (some "alice") (some "")).1.status = 400 ∧
    ¬ (registerHandler (registerHandler [] (some "alice") (some "pw1")).2
        (some "alice") (some "")).1.status = 409 :=
  ⟨rfl, by decide⟩

/-- Claim C7 (amended): immediately after register(u, p) succeeds the
username exists in the directory, and every subsequent register of the
same username — after any further register calls — fails without
registering: with the duplicate 409 response when the new password is
non-empty, and with the missing-fields 400 response when it is empty or
missing. -/
theorem register_duplicate_spec (users : List User) (u p : Option String)
    (h : (registerHandler users u p).1.status = 200) :
    isValid (registerHandler users u p).2 (u.getD "") = true ∧
    ∀ (ops : List (Option String × Option String)) (p' : Option String),
      (falsy p' = false →
        registerHandler (applyRegisters (registerHandler users u p).2 ops) u p' =
          (⟨409, "Username already exists. Please choose a different username."⟩,
            applyRegisters (registerHandler users u p).2 ops)) ∧
      (falsy p' = true →
        registerHandler (applyRegisters (registerHandler users u p).2 ops) u p' =
          (⟨400, "Username and password are required"⟩,
            applyRegisters (registerHandler users u p).2 ops)) := by
  obtain ⟨hu, hp, hv, heq⟩ := registerHandler_success users u p h
  have h1 : isValid (registerHandler users u p).2 (u.getD "") = true := by
    rw [heq]
    exact isValid_appended users _ _
  refine ⟨h1, fun ops p' => ⟨fun hp' => ?_, fun hp' => ?_⟩⟩
  · have h2 : isValid (applyRegisters (registerHandler users u p).2 ops)
        (u.getD "") = true :=
      isValid_applyRegisters _ ops _ h1
    generalize hg : applyRegisters (registerHandler users u p).2 ops = us2 at h2 ⊢
    simp [registerHandler, hu, hp', h2]
  · generalize hg : applyRegisters (registerHandler users u p).2 ops = us2
    simp [registerHandler, hu, hp']

/-- Witness for C7: register alice, register bob, then registering alice
again with a fresh password is refused as a duplicate. -/
theorem register_duplicate_witness :
    isValid (registerHandler [] (some "alice") (some "pw1")).2 "alice" = true ∧
    registerHandler
        (applyRegisters (registerHandler [] (some "alice") (some "pw1")).2
          [(some "bob", some "pw")])
        (some "alice") (some "pw2") =
      (⟨409, "Username already exists. Please choose a different username."⟩,
        applyRegisters (registerHandler [] (some "alice") (some "pw1")).2
          [(some "bob", some "pw")]) :=
  ⟨(register_duplicate_spec [] (some "alice") (some "pw1") rfl).1,
    ((register_duplicate_spec [] (some "alice") (some "pw1") rfl).2
      [(some "bob", some "pw")] (some "pw2")).1 rfl⟩

/-- Claim C8: the authenticated putReview handler reads the review text
from the query parameters only (its outcome is independent of the request
body), answers 400 when the query text is missing or empty, and answers
400 (not 404) when the book id is absent from the catalog. -/
theorem putReview_query_spec (cat : List (String × Book)) (sess : Session)
    (a : AuthToken) (ha : sess.authorization = some a) :
    (∀ isbn q body body',
      putReviewHandler cat sess ⟨isbn, q, body⟩ =
        putReviewHandler cat sess ⟨isbn, q, body'⟩) ∧
    (∀ isbn q body, falsy q = true →
      putReviewHandler cat sess ⟨isbn, q, body⟩ =
        (⟨400, "Review content is required"⟩, cat)) ∧
    (∀ isbn q body, falsy q = false → getBook cat isbn = none →
      putReviewHandler cat sess ⟨isbn, q, body⟩ = (⟨400, "Book not found"⟩, cat)) := by
  refine ⟨fun isbn q body body' => rfl, fun isbn q body hq => ?_,
    fun isbn q body hq hb => ?_⟩
  · simp [putReviewHandler, ha, hq]
  · simp [putReviewHandler, ha, hq, hb]

/-- Witness for C8 at the seeded catalog. -/
theorem putReview_query_witness :
    putReviewHandler books ⟨some ⟨true, "alice"⟩⟩ ⟨"1", some "Nice", some "ignored"⟩ =
      putReviewHandler books ⟨some ⟨true, "alice"⟩⟩ ⟨"1", some "Nice", none⟩ ∧
    putReviewHandler books ⟨some ⟨true, "alice"⟩⟩ ⟨"1", none, some "ignored"⟩ =
      (⟨400, "Review content is required"⟩, books) ∧
    putReviewHandler books ⟨some ⟨true, "alice"⟩⟩ ⟨"999", some "Nice", none⟩ =
      (⟨400, "Book not found"⟩, books) :=
  ⟨(putReview_query_spec books ⟨some ⟨true, "alice"⟩⟩ ⟨true, "alice"⟩ rfl).1
      "1" (some "Nice") (some "ignored") none,
    (putReview_query_spec books ⟨some ⟨true, "alice"⟩⟩ ⟨true, "alice"⟩ rfl).2.1
      "1" none (some "ignored") rfl,
    (putReview_query_spec books ⟨some ⟨true, "alice"⟩⟩ ⟨true, "alice"⟩ rfl).2.2
      "999" (some "Nice") none rfl (by decide)⟩

/-- Claim C9: a successful putReview changes only the acting user's entry
in the addressed book's review map; that book's author and title, its
other review entries, every other book, and the user directory are
unchanged. -/
theorem putReview_frame_spec (st : ServerState) (sess : Session) (a : AuthToken)
    (isbn text : String) (body : Option String) (b : Book)
    (ha : sess.authorization = some a) (ht : ¬ text = "")
    (hb : getBook st.books isbn = some b) :
    (runCustomerHandler st sess (.putReview ⟨isbn, some text, body⟩)).1.status = 200 ∧
    getBook (runCustomerHandler st sess (.putReview ⟨isbn, some text, body⟩)).2.1.books
        isbn = some ⟨b.author, b.title, setReview b.reviews a.username text⟩ ∧
    reviewLookup (setReview b.reviews a.username text) a.username = some text ∧
    (∀ u, ¬ u = a.username →
      reviewLookup (setReview b.reviews a.username text) u = reviewLookup b.reviews u) ∧
    (∀ j, ¬ j = isbn →
      getBook (runCustomerHandler st sess (.putReview ⟨isbn, some text, body⟩)).2.1.books
          j = getBook st.books j) ∧
    (runCustomerHandler st sess (.putReview ⟨isbn, some text, body⟩)).2.1.users =
      st.users := by
  have hf : falsy (some text) = false := beq_eq_false_iff_ne.mpr ht
  have hrun : runCustomerHandler st sess (.putReview ⟨isbn, some text, body⟩) =
      (⟨200, "Review for book with ISBN " ++ isbn ++
          " has been added/modified successfully"⟩,
        ⟨updateBook st.books isbn fun bk =>
          ⟨bk.author, bk.title, setReview bk.reviews a.username text⟩, st.users⟩, sess) := by
    simp [runCustomerHandler, putReviewHandler, ha, hf, hb]
  rw [hrun]
  refine ⟨rfl, ?_, reviewLookup_setReview_self _ _ _,
    fun u hu => reviewLookup_setReview_other _ _ _ _ hu, fun j hj => ?_, rfl⟩
  · show getBook (updateBook st.books isbn fun bk =>
      ⟨bk.author, bk.title, setReview bk.reviews a.username text⟩) isbn = _
    rw [getBook_updateBook_self, hb]
    rfl
  · show getBook (updateBook st.books isbn fun bk =>
      ⟨bk.author, bk.title, setReview bk.reviews a.username text⟩) j = _
    exact getBook_updateBook_other st.books isbn j _ hj

/-- Witness for C9 at the seeded catalog: writing a review on book 1 and
checking book 2, a second user, author, title and the user directory. -/
theorem putReview_frame_witness :
    (runCustomerHandler ⟨books, []⟩ ⟨some ⟨true, "alice"⟩⟩
        (.putReview ⟨"1", some "Great", none⟩)).1.status = 200 ∧
    getBook (runCustomerHandler ⟨books, []⟩ ⟨some ⟨true, "alice"⟩⟩
        (.putReview ⟨"1", some "Great", none⟩)).2.1.books "1" =
      some ⟨"Chinua Achebe", "Things Fall Apart", setReview [] "alice" "Great"⟩ ∧
    reviewLookup (setReview [] "alice" "Great") "alice" = some "Great" ∧
    reviewLookup (setReview [] "alice" "Great") "bob" = reviewLookup [] "bob" ∧
    getBook (runCustomerHandler ⟨books, []⟩ ⟨some ⟨true, "alice"⟩⟩
        (.putReview ⟨"1", some "Great", none⟩)).2.1.books "2" = getBook books "2" ∧
    (runCustomerHandler ⟨books, []⟩ ⟨some ⟨true, "alice"⟩⟩
        (.putReview ⟨"1", some "Great", none⟩)).2.1.users = [] :=
  have h := putReview_frame_spec ⟨books, []⟩ ⟨some ⟨true, "alice"⟩⟩ ⟨true, "alice"⟩
    "1" "Great" none ⟨"Chinua Achebe", "Things Fall Apart", []⟩ rfl (by decide) rfl
  ⟨h.1, h.2.1, h.2.2.1, h.2.2.2.1 "bob" (by decide), h.2.2.2.2.1 "2" (by decide),
    h.2.2.2.2.2⟩

/-- Claim C10: whenever register fails (missing or empty field, or
duplicate username), the user directory is left completely unchanged. -/
theorem register_error_frame (users : List User) (u p : Option String)
    (h : ¬ (registerHandler users u p).1.status = 200) :
    (registerHandler users u p).2 = users := by
  by_cases h1 : (falsy u || falsy p) = true
  · simp [registerHandler, h1]
  · by_cases h2 : isValid users (u.getD "") = true
    · simp [registerHandler, h1, h2]
    · exact absurd (by simp [registerHandler, h1, h2]) h

/-- Witness for C10: a registration with a missing password leaves the
directory unchanged. -/
theorem register_error_frame_witness :
    (registerHandler [] (some "alice") none).2 = [] :=
  register_error_frame [] (some "alice") none (by decide)

end ExpressBookReviews
